import Mathlib

/-!
Verification of the W25Q128FV SPI NOR-flash driver (`Src/w25q128fv_driver.c`).

The driver is embedded shallowly: every bus interaction (chip-select toggle,
SPI transmit/receive, busy-wait delay) is recorded as an `Event` in a trace,
and the outcome of each HAL transport call is supplied by the caller (either
as an explicit `HAL_StatusTypeDef` argument for functions with a fixed number
of transport calls, or as an oracle `Nat → HAL_StatusTypeDef` indexed by the
order of transport calls for the page-write loop).  Machine integers are
modelled as `Nat` with explicit `% 2^32` (uint32) and `% 2^16` (uint16)
truncation wherever the C arithmetic can overflow.
-/

/-- Geometry and protocol constants, from the `#define` block of
`w25q128fv_driver.c` (lines 4-23). -/
def W25Q128FV_PAGE_SIZE_IN_BYTES : Nat := 256

/-- Total number of bytes of the device (line 9 of the source). -/
def W25Q128FV_FLASH_MEMORY_TOTAL_SIZE_IN_BYTES : Nat := 16731136

/-- Total sectors minus one (line 8 of the source). -/
def W25Q128FV_TOTAL_SECTORS_MINUS_ONE : Nat := 4084

/-- Size in bytes of one sector (line 10 of the source). -/
def W25Q128FV_SECTOR_SIZE_IN_BYTES : Nat := 4096

/-- Maximum size in bytes of one page-program instruction frame,
opcode and address included (line 21 of the source). -/
def W25Q128FV_PAGE_PROGRAM_INSTRUCTION_MAX_SIZE_IN_BYTES : Nat := 259

/-- Maximum number of payload bytes per page-program instruction
(line 11 of the source). -/
def W25Q128FV_MAX_CONSECUTIVE_PROGRAMMABLE_BYTES : Nat := 255

/-- Opcode 0x66 (line 13). -/
def W25Q128FV_ENABLE_RESET_INSTRUCTION : Nat := 102

/-- Opcode 0x99 (line 14). -/
def W25Q128FV_RESET_DEVICE_INSTRUCTION : Nat := 153

/-- Opcode 0x9F (line 15). -/
def W25Q128FV_READ_JEDEC_ID_INSTRUCTION : Nat := 159

/-- Opcode 0x03 (line 16). -/
def W25Q128FV_READ_DATA_INSTRUCTION : Nat := 3

/-- Opcode 0x0B (line 17). -/
def W25Q128FV_FAST_READ_INSTRUCTION : Nat := 11

/-- Opcode 0x20 (line 18). -/
def W25Q128FV_SECTOR_ERASE_INSTRUCTION : Nat := 32

/-- Opcode 0xC7 (line 19). -/
def W25Q128FV_CHIP_ERASE_INSTRUCTION : Nat := 199

/-- Opcode 0x02 (line 20). -/
def W25Q128FV_PAGE_PROGRAM_INSTRUCTION : Nat := 2

/-- Opcode 0x06 (line 22). -/
def W25Q128FV_WRITE_ENABLE_INSTRUCTION : Nat := 6

/-- Opcode 0x04 (line 23). -/
def W25Q128FV_WRITE_DISABLE_INSTRUCTION : Nat := 4

/-- Modelled from the spec: the STM32 HAL transport outcome type
(`HAL_StatusTypeDef`), an external interface of the driver; the spec (section 6)
gives the outcome set Success / Busy / Timeout / ProtocolError.  The standard
HAL enumeration has exactly these four values (HAL_OK, HAL_ERROR, HAL_BUSY,
HAL_TIMEOUT). -/
inductive HAL_StatusTypeDef where
  | HAL_OK
  | HAL_ERROR
  | HAL_BUSY
  | HAL_TIMEOUT
deriving DecidableEq

/-- Modelled from the spec: the driver's three-valued result type
`W25Q128FV_Status`, declared in `w25q128fv_driver.h` which is not under
`src/`; the spec (sections 3 and 7) gives `OperationResult` as
Ok / NoResponse / Error, and the source uses the constants `W25Q128FV_EC_OK`
(numerically 0, matching `HAL_OK`), `W25Q128FV_EC_NR` and `W25Q128FV_EC_ERR`. -/
inductive W25Q128FV_Status where
  | W25Q128FV_EC_OK
  | W25Q128FV_EC_NR
  | W25Q128FV_EC_ERR
deriving DecidableEq

open HAL_StatusTypeDef W25Q128FV_Status

/-- Observable bus events emitted by the driver.  `spiTransmit` records the
exact bytes handed to `HAL_SPI_Transmit`; `spiReceive` records the number of
bytes requested from `HAL_SPI_Receive`; `csLow` / `csHigh` record the
chip-select writes of `set_cs_pin_low` / `set_cs_pin_high`; `delay` records
a `HAL_Delay` call with its millisecond argument. -/
inductive Event where
  | csLow
  | csHigh
  | spiTransmit (data : List Nat)
  | spiReceive (len : Nat)
  | delay (ms : Nat)
deriving DecidableEq

/-- Embeds `set_cs_pin_low` (lines 472-475): one chip-select assert event. -/
def set_cs_pin_low : Event := Event.csLow

/-- Embeds `set_cs_pin_high` (lines 477-480): one chip-select deassert event. -/
def set_cs_pin_high : Event := Event.csHigh

/-- Embeds `HAL_ret_handler` (lines 482-494): `HAL_BUSY` and `HAL_TIMEOUT`
map to `W25Q128FV_EC_NR`, `HAL_ERROR` maps to `W25Q128FV_EC_ERR`, and the
default branch returns the numeric `HAL_status` itself, which for `HAL_OK`
(numerically 0) is `W25Q128FV_EC_OK` (numerically 0). -/
def HAL_ret_handler : HAL_StatusTypeDef → W25Q128FV_Status
  | HAL_BUSY => W25Q128FV_EC_NR
  | HAL_TIMEOUT => W25Q128FV_EC_NR
  | HAL_ERROR => W25Q128FV_EC_ERR
  | HAL_OK => W25Q128FV_EC_OK

/-- Embeds `send_w25q128fv_write_enable_instruction` (lines 432-450):
assert CS, transmit the single write-enable opcode byte, deassert CS, and
return the mapped result of the one transport call (whose HAL outcome is the
argument `st`). -/
def send_w25q128fv_write_enable_instruction (st : HAL_StatusTypeDef) :
    W25Q128FV_Status × List Event :=
  (HAL_ret_handler st,
    [set_cs_pin_low, Event.spiTransmit [W25Q128FV_WRITE_ENABLE_INSTRUCTION],
      set_cs_pin_high])

/-- Embeds `send_w25q128fv_write_disable_instruction` (lines 452-470). -/
def send_w25q128fv_write_disable_instruction (st : HAL_StatusTypeDef) :
    W25Q128FV_Status × List Event :=
  (HAL_ret_handler st,
    [set_cs_pin_low, Event.spiTransmit [W25Q128FV_WRITE_DISABLE_INSTRUCTION],
      set_cs_pin_high])

/-- Embeds the inner byte-copy loop of `w25q128fv_write_flash_memory`
(lines 389-404).  Arguments are the C variables `currently_written_bytes`
(`cwb`) and `remaining_writable_bytes_in_current_page` (`remaining`) at loop
entry; `size` is the total requested byte count.  Each step copies one source
byte (`cwb` and the cursor address advance together) and decrements
`remaining`; when `remaining` hits 0 the page is full, `remaining` resets to
256 and the loop exits (under the loop invariant
`next_page_to_write == current_page_to_write + 1`, established at lines
352-354 and restored at lines 405-408, the C loop condition
`current_page_to_write < next_page_to_write` fails exactly once the page
fills); otherwise, if all `size` bytes are consumed, the loop breaks.
Returns the updated `(cwb, remaining)` pair.  The `remaining = 0` entry case
cannot arise from the driver (there `remaining` is always between 1 and 256);
it is given the page-full result. -/
def pageWriteInnerLoop (size : Nat) : Nat → Nat → Nat × Nat
  | cwb, 0 => (cwb + 1, W25Q128FV_PAGE_SIZE_IN_BYTES)
  | cwb, 1 => (cwb + 1, W25Q128FV_PAGE_SIZE_IN_BYTES)
  | cwb, remaining + 2 =>
    if cwb + 1 = size then (cwb + 1, remaining + 1)
    else pageWriteInnerLoop size (cwb + 1) (remaining + 1)

/-- Embeds the outer for-loop of `w25q128fv_write_flash_memory`
(lines 363-427).  State: `addr` is `current_w25q128fv_flash_memory_address`,
`cwb` is `currently_written_bytes`, `remaining` is
`remaining_writable_bytes_in_current_page`, and `k` indexes the HAL transport
calls consumed so far (the oracle `hal` gives each call's outcome: index `k`
is the write-enable transmit, `k+1` the page-program transmit, `k+2` the
write-disable transmit of one iteration).  Each iteration:
write-enable (failure returns `W25Q128FV_EC_ERR`, lines 366-370); formulate
the page-program frame with the big-endian 24-bit address (lines 373-375);
assert CS; copy one byte if the cursor is at a page boundary
(`remaining = 256`, lines 380-386) or run the inner copy loop otherwise
(lines 388-409); transmit the frame and deassert CS (failure returns the
mapped transport result itself, lines 412-418); delay 3 ms; write-disable
(failure returns `W25Q128FV_EC_ERR`, lines 422-426).
The C loop terminates because every iteration programs at least one byte;
this measure is made explicit as `fuel`, initialised to `size` at the single
call site, which suffices (the fuel-exhausted branch is unreachable from the
entry point). -/
def writeLoop (hal : Nat → HAL_StatusTypeDef) (src : List Nat)
    (size addr_end : Nat) :
    Nat → Nat → Nat → Nat → Nat → W25Q128FV_Status × List Event × Nat
  | 0, addr, _, _, k =>
    if addr < addr_end then (W25Q128FV_EC_ERR, [], k)
    else (W25Q128FV_EC_OK, [], k)
  | fuel + 1, addr, cwb, remaining, k =>
    if addr < addr_end then
        let weRet := HAL_ret_handler (hal k)
        let weTr : List Event :=
          [set_cs_pin_low,
            Event.spiTransmit [W25Q128FV_WRITE_ENABLE_INSTRUCTION],
            set_cs_pin_high]
        if weRet ≠ W25Q128FV_EC_OK then (W25Q128FV_EC_ERR, weTr, k + 1)
        else
          let header : List Nat :=
            [W25Q128FV_PAGE_PROGRAM_INSTRUCTION,
              addr / 65536 % 256, addr / 256 % 256, addr % 256]
          let st :=
            if remaining = W25Q128FV_PAGE_SIZE_IN_BYTES then
              (cwb + 1, W25Q128FV_PAGE_SIZE_IN_BYTES - 1)
            else pageWriteInnerLoop size cwb remaining
          let chunk := st.1 - cwb
          let payload := (src.drop cwb).take chunk
          let ppTr : List Event :=
            [set_cs_pin_low, Event.spiTransmit (header ++ payload),
              set_cs_pin_high]
          let ppRet := HAL_ret_handler (hal (k + 1))
          if ppRet ≠ W25Q128FV_EC_OK then (ppRet, weTr ++ ppTr, k + 2)
          else
            let wdTr : List Event :=
              [Event.delay 3, set_cs_pin_low,
                Event.spiTransmit [W25Q128FV_WRITE_DISABLE_INSTRUCTION],
                set_cs_pin_high]
            let wdRet := HAL_ret_handler (hal (k + 2))
            if wdRet ≠ W25Q128FV_EC_OK then
              (W25Q128FV_EC_ERR, weTr ++ ppTr ++ wdTr, k + 3)
            else
              let r := writeLoop hal src size addr_end fuel (addr + chunk)
                st.1 st.2 (k + 3)
              (r.1, weTr ++ ppTr ++ wdTr ++ r.2.1, r.2.2)
    else (W25Q128FV_EC_OK, [], k)

/-- Embeds `w25q128fv_write_flash_memory` (lines 325-430).  All address
arithmetic is uint32 (`% 2^32`); `page_bytes_offset` is a `uint8_t` in C and
theorems therefore assume it below 256.  The resolved start address, the
exclusive end address and the range validation (lines 330-338), the start
page and initial remaining-bytes-in-page computation with its uint16
truncation and zero fix-up (lines 341-360) follow the source; the write loop
is `writeLoop` with the HAL-call oracle `hal`. -/
def w25q128fv_write_flash_memory (hal : Nat → HAL_StatusTypeDef)
    (start_page page_bytes_offset size : Nat) (src : List Nat) :
    W25Q128FV_Status × List Event :=
  let w25q128fv_flash_memory_addr_start :=
    (start_page * W25Q128FV_PAGE_SIZE_IN_BYTES + page_bytes_offset) %
      4294967296
  let w25q128fv_flash_memory_addr_end_plus_one :=
    (w25q128fv_flash_memory_addr_start + size) % 4294967296
  if w25q128fv_flash_memory_addr_end_plus_one >
      W25Q128FV_FLASH_MEMORY_TOTAL_SIZE_IN_BYTES then
    (W25Q128FV_EC_ERR, [])
  else
    let w25q128fv_flash_memory_page_start :=
      (start_page + page_bytes_offset / W25Q128FV_PAGE_SIZE_IN_BYTES) %
        4294967296
    let sub :=
      (w25q128fv_flash_memory_addr_start + 4294967296 -
        w25q128fv_flash_memory_page_start * W25Q128FV_PAGE_SIZE_IN_BYTES %
          4294967296) % 4294967296
    let rwb := (W25Q128FV_PAGE_SIZE_IN_BYTES + 4294967296 - sub) %
      4294967296 % 65536
    let remaining_writable_bytes_in_current_page :=
      if rwb = 0 then W25Q128FV_PAGE_SIZE_IN_BYTES else rwb
    let r := writeLoop hal src size w25q128fv_flash_memory_addr_end_plus_one
      size w25q128fv_flash_memory_addr_start 0
      remaining_writable_bytes_in_current_page 0
    (r.1, r.2.1)

/-- Embeds `w25q128fv_read_id` (lines 116-154).  `t` is the HAL outcome of
the JEDEC-id transmit, `r` the outcome of the 3-byte receive, and
`resp0 resp1 resp2` the received bytes (each a `uint8_t`).  The second
component models the caller-provided `*w25q128fv_id` location: `none` means
the function returned without storing anything, `some v` that it stored `v`
(the C writes the location at most once, at line 151).  On a transmit
failure CS is deasserted before the early return (line 131); the id is the
three response bytes ored together after left shifts of 16 and 8
(line 151). -/
def w25q128fv_read_id (t r : HAL_StatusTypeDef) (resp0 resp1 resp2 : Nat) :
    W25Q128FV_Status × Option Nat × List Event :=
  let txTr : List Event :=
    [set_cs_pin_low, Event.spiTransmit [W25Q128FV_READ_JEDEC_ID_INSTRUCTION]]
  let ret1 := HAL_ret_handler t
  if ret1 ≠ W25Q128FV_EC_OK then (ret1, none, txTr ++ [set_cs_pin_high])
  else
    let tr := txTr ++ [Event.spiReceive 3, set_cs_pin_high]
    let ret2 := HAL_ret_handler r
    if ret2 ≠ W25Q128FV_EC_OK then (ret2, none, tr)
    else if resp0 = 0 ∧ resp1 = 0 ∧ resp2 = 0 then (W25Q128FV_EC_NR, none, tr)
    else
      (W25Q128FV_EC_OK,
        some (resp0 <<< 16 ||| resp1 <<< 8 ||| resp2), tr)

/-- Embeds `w25q128fv_read_flash_memory` (lines 156-196): resolve the uint32
start address, reject the request when the uint32 end address exceeds the
device capacity (lines 164-167) before any bus event, otherwise transmit the
4-byte read instruction and receive `size` bytes, deasserting CS on the early
transmit-failure path (line 182). -/
def w25q128fv_read_flash_memory (t r : HAL_StatusTypeDef)
    (start_page page_bytes_offset size : Nat) :
    W25Q128FV_Status × List Event :=
  let w25q128fv_flash_memory_addr :=
    (start_page * W25Q128FV_PAGE_SIZE_IN_BYTES + page_bytes_offset) %
      4294967296
  if (w25q128fv_flash_memory_addr + size) % 4294967296 >
      W25Q128FV_FLASH_MEMORY_TOTAL_SIZE_IN_BYTES then
    (W25Q128FV_EC_ERR, [])
  else
    let read_data_instruction : List Nat :=
      [W25Q128FV_READ_DATA_INSTRUCTION,
        w25q128fv_flash_memory_addr / 65536 % 256,
        w25q128fv_flash_memory_addr / 256 % 256,
        w25q128fv_flash_memory_addr % 256]
    let txTr : List Event :=
      [set_cs_pin_low, Event.spiTransmit read_data_instruction]
    let ret1 := HAL_ret_handler t
    if ret1 ≠ W25Q128FV_EC_OK then (ret1, txTr ++ [set_cs_pin_high])
    else
      let tr := txTr ++ [Event.spiReceive size, set_cs_pin_high]
      let ret2 := HAL_ret_handler r
      if ret2 ≠ W25Q128FV_EC_OK then (ret2, tr) else (W25Q128FV_EC_OK, tr)

/-- Embeds `w25q128fv_fast_read_flash_memory` (lines 198-239): same shape as
the plain read but with the fast-read opcode and one trailing dummy byte in
the 5-byte instruction frame (line 217). -/
def w25q128fv_fast_read_flash_memory (t r : HAL_StatusTypeDef)
    (start_page page_bytes_offset size : Nat) :
    W25Q128FV_Status × List Event :=
  let w25q128fv_flash_memory_addr :=
    (start_page * W25Q128FV_PAGE_SIZE_IN_BYTES + page_bytes_offset) %
      4294967296
  if (w25q128fv_flash_memory_addr + size) % 4294967296 >
      W25Q128FV_FLASH_MEMORY_TOTAL_SIZE_IN_BYTES then
    (W25Q128FV_EC_ERR, [])
  else
    let fast_read_instruction : List Nat :=
      [W25Q128FV_FAST_READ_INSTRUCTION,
        w25q128fv_flash_memory_addr / 65536 % 256,
        w25q128fv_flash_memory_addr / 256 % 256,
        w25q128fv_flash_memory_addr % 256, 0]
    let txTr : List Event :=
      [set_cs_pin_low, Event.spiTransmit fast_read_instruction]
    let ret1 := HAL_ret_handler t
    if ret1 ≠ W25Q128FV_EC_OK then (ret1, txTr ++ [set_cs_pin_high])
    else
      let tr := txTr ++ [Event.spiReceive size, set_cs_pin_high]
      let ret2 := HAL_ret_handler r
      if ret2 ≠ W25Q128FV_EC_OK then (ret2, tr) else (W25Q128FV_EC_OK, tr)

/-- Embeds `w25q128fv_erase_sector` (lines 241-288).  `h1`, `h2`, `h3` are
the HAL outcomes of the write-enable transmit, the sector-erase transmit and
the write-disable transmit respectively.  A sector number above
`W25Q128FV_TOTAL_SECTORS_MINUS_ONE` is rejected before any bus event
(lines 247-250); write-enable and write-disable failures are coerced to
`W25Q128FV_EC_ERR` (lines 254-257 and 282-285) while the erase transmit
failure returns its own mapped result (lines 273-277). -/
def w25q128fv_erase_sector (h1 h2 h3 : HAL_StatusTypeDef)
    (sector_number : Nat) : W25Q128FV_Status × List Event :=
  if sector_number > W25Q128FV_TOTAL_SECTORS_MINUS_ONE then
    (W25Q128FV_EC_ERR, [])
  else
    let we := send_w25q128fv_write_enable_instruction h1
    if we.1 ≠ W25Q128FV_EC_OK then (W25Q128FV_EC_ERR, we.2)
    else
      let w25q128fv_flash_memory_addr :=
        sector_number * W25Q128FV_SECTOR_SIZE_IN_BYTES % 4294967296
      let sector_erase_instruction : List Nat :=
        [W25Q128FV_SECTOR_ERASE_INSTRUCTION,
          w25q128fv_flash_memory_addr / 65536 % 256,
          w25q128fv_flash_memory_addr / 256 % 256,
          w25q128fv_flash_memory_addr % 256]
      let seTr : List Event :=
        [set_cs_pin_low, Event.spiTransmit sector_erase_instruction,
          set_cs_pin_high]
      let seRet := HAL_ret_handler h2
      if seRet ≠ W25Q128FV_EC_OK then (seRet, we.2 ++ seTr)
      else
        let dTr : List Event := [Event.delay 400]
        let wd := send_w25q128fv_write_disable_instruction h3
        if wd.1 ≠ W25Q128FV_EC_OK then
          (W25Q128FV_EC_ERR, we.2 ++ seTr ++ dTr ++ wd.2)
        else (W25Q128FV_EC_OK, we.2 ++ seTr ++ dTr ++ wd.2)

/-- Embeds `w25q128fv_chip_erase` (lines 290-323), with the same
write-enable / erase / write-disable outcome arguments as the sector erase. -/
def w25q128fv_chip_erase (h1 h2 h3 : HAL_StatusTypeDef) :
    W25Q128FV_Status × List Event :=
  let we := send_w25q128fv_write_enable_instruction h1
  if we.1 ≠ W25Q128FV_EC_OK then (W25Q128FV_EC_ERR, we.2)
  else
    let ceTr : List Event :=
      [set_cs_pin_low, Event.spiTransmit [W25Q128FV_CHIP_ERASE_INSTRUCTION],
        set_cs_pin_high]
    let ceRet := HAL_ret_handler h2
    if ceRet ≠ W25Q128FV_EC_OK then (ceRet, we.2 ++ ceTr)
    else
      let dTr : List Event := [Event.delay 200000]
      let wd := send_w25q128fv_write_disable_instruction h3
      if wd.1 ≠ W25Q128FV_EC_OK then
        (W25Q128FV_EC_ERR, we.2 ++ ceTr ++ dTr ++ wd.2)
      else (W25Q128FV_EC_OK, we.2 ++ ceTr ++ dTr ++ wd.2)

/-- Embeds `w25q128fv_software_reset` (lines 95-114): one CS-bracketed
transmit of the enable-reset and reset-device opcode pair, then a 1 ms delay
on success. -/
def w25q128fv_software_reset (h1 : HAL_StatusTypeDef) :
    W25Q128FV_Status × List Event :=
  let tr : List Event :=
    [set_cs_pin_low,
      Event.spiTransmit
        [W25Q128FV_ENABLE_RESET_INSTRUCTION,
          W25Q128FV_RESET_DEVICE_INSTRUCTION],
      set_cs_pin_high]
  let ret := HAL_ret_handler h1
  if ret ≠ W25Q128FV_EC_OK then (ret, tr)
  else (W25Q128FV_EC_OK, tr ++ [Event.delay 1])

/-- Transport stub whose every call succeeds. -/
def halAllOk : Nat → HAL_StatusTypeDef := fun _ => HAL_OK

/-- Checks that chip-select events in a trace are well bracketed: starting
from the state `asserted`, a `csLow` may occur only when the line is
deasserted, a `csHigh` only when it is asserted, and the trace must end with
the line deasserted. -/
def csOk : Bool → List Event → Bool
  | asserted, [] => !asserted
  | asserted, Event.csLow :: rest => !asserted && csOk true rest
  | asserted, Event.csHigh :: rest => asserted && csOk false rest
  | asserted, _ :: rest => csOk asserted rest

/-- Extracts from a trace the page-program sub-instructions: every
`spiTransmit` whose frame starts with the page-program opcode 0x02 yields the
24-bit big-endian address carried in its bytes 1-3 together with its payload
(the frame bytes after the 4-byte header). -/
def subInstrs : List Event → List (Nat × List Nat)
  | [] => []
  | Event.spiTransmit (o :: a2 :: a1 :: a0 :: payload) :: rest =>
    if o = W25Q128FV_PAGE_PROGRAM_INSTRUCTION then
      (a2 * 65536 + a1 * 256 + a0, payload) :: subInstrs rest
    else subInstrs rest
  | _ :: rest => subInstrs rest

/-- Number of `spiTransmit` events in a trace (each consumes exactly one
HAL transport call in the page-write loop). -/
def txCount : List Event → Nat
  | [] => 0
  | Event.spiTransmit _ :: rest => txCount rest + 1
  | _ :: rest => txCount rest

/-- Checks that a sub-instruction list tiles the address interval from `a`
to `b` exactly: the first sub-instruction starts at `a`, each is nonempty,
each next one starts where the previous one ended, and the last one ends at
`b`.  This is contiguity, absence of overlap and exact union at once. -/
def chunksCoverB : Nat → List (Nat × List Nat) → Nat → Bool
  | a, [], b => a == b
  | a, c :: rest, b =>
    (c.1 == a) && (c.2.length != 0) && chunksCoverB (a + c.2.length) rest b

/-- The amended chunk law of the splitter, stated as an executable
reference: from cursor address `addr` with `bl` bytes left and `remaining`
writable bytes in the current page, the driver emits a 1-byte sub-instruction
whenever the cursor sits exactly on a page boundary (`remaining = 256`,
lines 380-386 of the source) and otherwise a sub-instruction of
`min remaining bl` bytes; `remaining` then resets to 256 on a page fill.
Produces the list of (address, length) pairs. -/
def amendedChunks : Nat → Nat → Nat → List (Nat × Nat)
  | addr, bl, remaining =>
    if bl = 0 then []
    else if remaining = W25Q128FV_PAGE_SIZE_IN_BYTES then
      (addr, 1) :: amendedChunks (addr + 1) (bl - 1)
        (W25Q128FV_PAGE_SIZE_IN_BYTES - 1)
    else
      let c := min remaining bl
      if c = 0 then []
      else
        (addr, c) :: amendedChunks (addr + c) (bl - c)
          (if remaining - c = 0 then W25Q128FV_PAGE_SIZE_IN_BYTES
            else remaining - c)
termination_by _ bl _ => bl
decreasing_by all_goals simp_all; omega

theorem pageWriteInnerLoop_spec (size : Nat) :
    ∀ remaining cwb, 1 ≤ remaining → cwb < size →
    pageWriteInnerLoop size cwb remaining =
      (cwb + min remaining (size - cwb),
        if remaining ≤ size - cwb then W25Q128FV_PAGE_SIZE_IN_BYTES
        else remaining - (size - cwb)) := by
  intro remaining
  induction remaining with
  | zero => intro cwb h1 h2; omega
  | succ t ih =>
    intro cwb h1 h2
    cases t with
    | zero =>
      rw [pageWriteInnerLoop]
      have hm : min 1 (size - cwb) = 1 := by omega
      rw [hm, if_pos (by omega)]
    | succ s =>
      rw [pageWriteInnerLoop]
      by_cases hlast : cwb + 1 = size
      · rw [if_pos hlast]
        have hm : min (s + 2) (size - cwb) = 1 := by omega
        rw [hm, if_neg (by omega)]
        simp only [Prod.mk.injEq, true_and]
        omega
      · rw [if_neg hlast]
        rw [ih (cwb + 1) (by omega) (by omega)]
        simp only [Prod.mk.injEq]
        refine ⟨by omega, ?_⟩
        by_cases hf : s + 2 ≤ size - cwb
        · rw [if_pos (by omega), if_pos (by omega)]
        · rw [if_neg (by omega), if_neg (by omega)]
          omega

theorem lor_of_lt_two_pow (i : Nat) :
    ∀ a b, b < 2 ^ i → a * 2 ^ i ||| b = a * 2 ^ i + b := by
  induction i with
  | zero =>
    intro a b hb
    have : b = 0 := by omega
    subst this
    simp
  | succ i ih =>
    intro a b hb
    have hpow : 2 ^ (i + 1) = 2 * 2 ^ i := by ring
    have hb2 : b / 2 < 2 ^ i := by omega
    have hb0 : b = Nat.bit (Nat.bodd b) (b / 2) := by
      rw [Nat.bit_val, ← Nat.mod_two_of_bodd]
      omega
    have ha : a * 2 ^ (i + 1) = Nat.bit false (a * 2 ^ i) := by
      rw [Nat.bit_val]
      simp [hpow]
      ring
    calc a * 2 ^ (i + 1) ||| b
        = Nat.bit false (a * 2 ^ i) ||| Nat.bit (Nat.bodd b) (b / 2) := by
          rw [← ha, ← hb0]
      _ = Nat.bit (false || Nat.bodd b) (a * 2 ^ i ||| b / 2) :=
          Nat.lor_bit false (a * 2 ^ i) (Nat.bodd b) (b / 2)
      _ = Nat.bit (Nat.bodd b) (a * 2 ^ i + b / 2) := by
          rw [ih a (b / 2) hb2]
          simp
      _ = a * 2 ^ (i + 1) + b := by
          rw [Nat.bit_val, ← Nat.mod_two_of_bodd]
          have ha2 : a * 2 ^ (i + 1) = 2 * (a * 2 ^ i) := by ring
          omega

theorem jedec_pack (b0 b1 b2 : Nat) (h0 : b0 < 256) (h1 : b1 < 256)
    (h2 : b2 < 256) :
    b0 <<< 16 ||| b1 <<< 8 ||| b2 = b0 * 65536 + b1 * 256 + b2 := by
  rw [Nat.shiftLeft_eq, Nat.shiftLeft_eq]
  have e1 : b0 * 2 ^ 16 ||| b1 * 2 ^ 8 = b0 * 2 ^ 16 + b1 * 2 ^ 8 := by
    have := lor_of_lt_two_pow 16 b0 (b1 * 2 ^ 8)
    apply this
    have : (2 : Nat) ^ 8 = 256 := by norm_num
    rw [this]
    have : (2 : Nat) ^ 16 = 65536 := by norm_num
    rw [this]
    omega
  rw [e1]
  have e2 : b0 * 2 ^ 16 + b1 * 2 ^ 8 = (b0 * 2 ^ 8 + b1) * 2 ^ 8 := by ring
  rw [e2]
  have e3 := lor_of_lt_two_pow 8 (b0 * 2 ^ 8 + b1) b2 (by norm_num; omega)
  rw [e3]
  have : (2 : Nat) ^ 8 = 256 := by norm_num
  rw [this]
  ring

theorem csOk_run : ∀ (a : List Event) (s : Bool) (b : List Event),
    csOk s a = true → csOk false b = true → csOk s (a ++ b) = true := by
  intro a
  induction a with
  | nil =>
    intro s b ha hb
    simp only [csOk, Bool.not_eq_true'] at ha
    subst ha
    simpa using hb
  | cons e rest ih =>
    intro s b ha hb
    cases e with
    | csLow =>
      simp only [csOk, Bool.and_eq_true, Bool.not_eq_true'] at ha
      simp only [List.cons_append, csOk, ha.1, Bool.not_false, Bool.true_and]
      exact ih true b ha.2 hb
    | csHigh =>
      simp only [csOk, Bool.and_eq_true] at ha
      simp only [List.cons_append, csOk, ha.1, Bool.true_and]
      exact ih false b ha.2 hb
    | spiTransmit d =>
      simp only [csOk] at ha
      simpa only [List.cons_append, csOk] using ih s b ha hb
    | spiReceive n =>
      simp only [csOk] at ha
      simpa only [List.cons_append, csOk] using ih s b ha hb
    | delay ms =>
      simp only [csOk] at ha
      simpa only [List.cons_append, csOk] using ih s b ha hb

theorem addr_bytes_recover (a : Nat) (h : a < 16777216) :
    a / 65536 % 256 * 65536 + a / 256 % 256 * 256 + a % 256 = a := by
  omega

/-- Central invariant of the page-write loop under an always-succeeding
transport: starting from a cursor `addr` with `cwb` bytes already consumed,
`remaining` writable bytes left in the current page (with
`(addr + remaining) % 256 = 0`), and the end address reachable within
`fuel` iterations, the page-program sub-instructions emitted by the loop
tile `[addr, addr_end)` exactly, carry precisely the corresponding source
bytes in order, and their (address, length) skeleton is the chunk law
`amendedChunks`. -/
theorem writeLoop_allOk_spec (src : List Nat) (size addr_end : Nat)
    (hend : addr_end ≤ W25Q128FV_FLASH_MEMORY_TOTAL_SIZE_IN_BYTES)
    (hsrc : size ≤ src.length) :
    ∀ fuel addr cwb remaining k,
      addr_end ≤ addr + fuel → cwb ≤ size →
      addr + (size - cwb) = addr_end →
      1 ≤ remaining → remaining ≤ 256 → (addr + remaining) % 256 = 0 →
      chunksCoverB addr
        (subInstrs (writeLoop halAllOk src size addr_end fuel addr cwb
          remaining k).2.1) addr_end = true ∧
      ((subInstrs (writeLoop halAllOk src size addr_end fuel addr cwb
          remaining k).2.1).map Prod.snd).flatten =
        (src.drop cwb).take (size - cwb) ∧
      (subInstrs (writeLoop halAllOk src size addr_end fuel addr cwb
          remaining k).2.1).map (fun c => (c.1, c.2.length)) =
        amendedChunks addr (size - cwb) remaining := by
  have hend24 : W25Q128FV_FLASH_MEMORY_TOTAL_SIZE_IN_BYTES = 16731136 := rfl
  intro fuel
  induction fuel with
  | zero =>
    intro addr cwb remaining k haf hcwb haddr hr1 hr2 hmod
    have hstop : ¬ addr < addr_end := by omega
    rw [writeLoop, if_neg hstop]
    have haeq : (addr == addr_end) = true := by simp; omega
    have hsz : size - cwb = 0 := by omega
    rw [amendedChunks]
    simp [subInstrs, chunksCoverB, haeq, hsz]
  | succ fuel ih =>
    intro addr cwb remaining k haf hcwb haddr hr1 hr2 hmod
    by_cases hlt : addr < addr_end
    · -- one loop iteration; package the chunk facts
      have hcwblt : cwb < size := by omega
      obtain ⟨C, R, hst, hC1, hC2, hR1, hR2, hRmod, hAm⟩ :
          ∃ C R,
            (if remaining = W25Q128FV_PAGE_SIZE_IN_BYTES then
                (cwb + 1, W25Q128FV_PAGE_SIZE_IN_BYTES - 1)
              else pageWriteInnerLoop size cwb remaining) = (cwb + C, R) ∧
            1 ≤ C ∧ cwb + C ≤ size ∧ 1 ≤ R ∧ R ≤ 256 ∧
            (addr + C + R) % 256 = 0 ∧
            amendedChunks addr (size - cwb) remaining =
              (addr, C) :: amendedChunks (addr + C) (size - (cwb + C)) R := by
        by_cases hpb : remaining = W25Q128FV_PAGE_SIZE_IN_BYTES
        · refine ⟨1, 255, ?_, by omega, by omega, by omega, by omega, ?_, ?_⟩
          · rw [if_pos hpb]
            rfl
          · have : remaining = 256 := hpb
            omega
          · rw [amendedChunks, if_neg (by omega), if_pos hpb]
            have h1 : size - cwb - 1 = size - (cwb + 1) := by omega
            rw [h1]
            rfl
        · have hrem255 : remaining ≤ 255 := by
            have : W25Q128FV_PAGE_SIZE_IN_BYTES = 256 := rfl
            omega
          rw [if_neg hpb, pageWriteInnerLoop_spec size remaining cwb hr1 hcwblt]
          by_cases hfill : remaining ≤ size - cwb
          · refine ⟨remaining, 256, ?_, by omega, by omega, by omega, by omega,
              by omega, ?_⟩
            · rw [if_pos hfill]
              have hm : min remaining (size - cwb) = remaining := by omega
              rw [hm]
              rfl
            · rw [amendedChunks, if_neg (by omega), if_neg hpb]
              have hm : min remaining (size - cwb) = remaining := by omega
              simp only [hm]
              rw [if_neg (by omega), if_pos (by omega)]
              have h1 : size - cwb - remaining = size - (cwb + remaining) := by
                omega
              rw [h1]
              rfl
          · refine ⟨size - cwb, remaining - (size - cwb), ?_, by omega,
              by omega, by omega, by omega, by omega, ?_⟩
            · rw [if_neg hfill]
              have hm : min remaining (size - cwb) = size - cwb := by omega
              rw [hm]
            · rw [amendedChunks, if_neg (by omega), if_neg hpb]
              have hm : min remaining (size - cwb) = size - cwb := by omega
              simp only [hm]
              rw [if_neg (by omega), if_neg (by omega)]
              have h1 : size - cwb - (size - cwb) = size - (cwb + (size - cwb)) := by
                omega
              rw [h1]
      -- unfold one loop iteration
      rw [writeLoop, if_pos hlt]
      have hok : ∀ n, HAL_ret_handler (halAllOk n) = W25Q128FV_EC_OK :=
        fun _ => rfl
      simp only [hok, ne_eq, not_true_eq_false, if_false, ite_false, hst]
      have hCsub : cwb + C - cwb = C := by omega
      rw [hCsub]
      have hblock : ∀ rest : List Event,
          subInstrs
            ([set_cs_pin_low,
                Event.spiTransmit [W25Q128FV_WRITE_ENABLE_INSTRUCTION],
                set_cs_pin_high] ++
              [set_cs_pin_low,
                Event.spiTransmit
                  ([W25Q128FV_PAGE_PROGRAM_INSTRUCTION, addr / 65536 % 256,
                      addr / 256 % 256, addr % 256] ++
                    List.take C (List.drop cwb src)),
                set_cs_pin_high] ++
              [Event.delay 3, set_cs_pin_low,
                Event.spiTransmit [W25Q128FV_WRITE_DISABLE_INSTRUCTION],
                set_cs_pin_high] ++ rest) =
            (addr / 65536 % 256 * 65536 + addr / 256 % 256 * 256 + addr % 256,
              List.take C (List.drop cwb src)) :: subInstrs rest := by
        intro rest
        simp [subInstrs, set_cs_pin_low, set_cs_pin_high,
          W25Q128FV_WRITE_ENABLE_INSTRUCTION,
          W25Q128FV_WRITE_DISABLE_INSTRUCTION,
          W25Q128FV_PAGE_PROGRAM_INSTRUCTION]
      rw [hblock]
      have hrec : addr / 65536 % 256 * 65536 + addr / 256 % 256 * 256 +
          addr % 256 = addr :=
        addr_bytes_recover addr (by omega)
      rw [hrec]
      have hplen : (List.take C (List.drop cwb src)).length = C := by
        simp [List.length_take, List.length_drop]
        omega
      obtain ⟨ihCover, ihFlat, ihMap⟩ := ih (addr + C) (cwb + C) R (k + 3)
        (by omega) (by omega) (by omega) (by omega) (by omega) (by omega)
      refine ⟨?_, ?_, ?_⟩
      · simp only [chunksCoverB, hplen, Bool.and_eq_true, beq_self_eq_true,
          true_and, bne_iff_ne, ne_eq]
        exact ⟨by omega, ihCover⟩
      · simp only [List.map_cons, List.flatten_cons, ihFlat]
        have hsplit : size - cwb = C + (size - (cwb + C)) := by omega
        rw [hsplit, List.take_add]
        congr 1
        rw [List.drop_drop]
      · simp only [List.map_cons, hplen, ihMap, hAm]
    · rw [writeLoop, if_neg hlt]
      have haeq : (addr == addr_end) = true := by simp; omega
      have hsz : size - cwb = 0 := by omega
      rw [amendedChunks]
      simp [subInstrs, chunksCoverB, haeq, hsz]

/-- One iteration of the splitter, abstracted: from a cursor with `cwb`
consumed bytes and `remaining` writable bytes in the current page, the data
population step (boundary 1-byte copy or inner loop) advances `cwb` by some
chunk `C` and leaves `R` remaining bytes, with the bounds and the
`amendedChunks` unfolding that the loop inductions need. -/
theorem writeStep_chunk (size cwb remaining addr : Nat) (hcwblt : cwb < size)
    (hr1 : 1 ≤ remaining) (hr2 : remaining ≤ 256)
    (hmod : (addr + remaining) % 256 = 0) :
    ∃ C R,
      (if remaining = W25Q128FV_PAGE_SIZE_IN_BYTES then
          (cwb + 1, W25Q128FV_PAGE_SIZE_IN_BYTES - 1)
        else pageWriteInnerLoop size cwb remaining) = (cwb + C, R) ∧
      1 ≤ C ∧ cwb + C ≤ size ∧ C ≤ remaining ∧ C ≤ 255 ∧
      1 ≤ R ∧ R ≤ 256 ∧ (addr + C + R) % 256 = 0 ∧
      amendedChunks addr (size - cwb) remaining =
        (addr, C) :: amendedChunks (addr + C) (size - (cwb + C)) R := by
  by_cases hpb : remaining = W25Q128FV_PAGE_SIZE_IN_BYTES
  · have hpb256 : remaining = 256 := hpb
    refine ⟨1, 255, ?_, by omega, by omega, by omega, by omega, by omega,
      by omega, by omega, ?_⟩
    · rw [if_pos hpb]
      rfl
    · rw [amendedChunks, if_neg (by omega), if_pos hpb]
      have h1 : size - cwb - 1 = size - (cwb + 1) := by omega
      rw [h1]
      rfl
  · have hrem255 : remaining ≤ 255 := by
      have : W25Q128FV_PAGE_SIZE_IN_BYTES = 256 := rfl
      omega
    rw [if_neg hpb, pageWriteInnerLoop_spec size remaining cwb hr1 hcwblt]
    by_cases hfill : remaining ≤ size - cwb
    · refine ⟨remaining, 256, ?_, by omega, by omega, by omega, by omega,
        by omega, by omega, by omega, ?_⟩
      · rw [if_pos hfill]
        have hm : min remaining (size - cwb) = remaining := by omega
        rw [hm]
        rfl
      · rw [amendedChunks, if_neg (by omega), if_neg hpb]
        have hm : min remaining (size - cwb) = remaining := by omega
        simp only [hm]
        rw [if_neg (by omega), if_pos (by omega)]
        have h1 : size - cwb - remaining = size - (cwb + remaining) := by omega
        rw [h1]
        rfl
    · refine ⟨size - cwb, remaining - (size - cwb), ?_, by omega, by omega,
        by omega, by omega, by omega, by omega, by omega, ?_⟩
      · rw [if_neg hfill]
        have hm : min remaining (size - cwb) = size - cwb := by omega
        rw [hm]
      · rw [amendedChunks, if_neg (by omega), if_neg hpb]
        have hm : min remaining (size - cwb) = size - cwb := by omega
        simp only [hm]
        rw [if_neg (by omega), if_neg (by omega)]
        have h1 : size - cwb - (size - cwb) = size - (cwb + (size - cwb)) := by
          omega
        rw [h1]

/-- Page safety of the write loop under an arbitrary transport: every
emitted page-program sub-instruction has a payload of 1 to 255 bytes and
stays within a single 256-byte page. -/
theorem writeLoop_page_safe (hal : Nat → HAL_StatusTypeDef) (src : List Nat)
    (size addr_end : Nat)
    (hend : addr_end ≤ W25Q128FV_FLASH_MEMORY_TOTAL_SIZE_IN_BYTES)
    (hsrc : size ≤ src.length) :
    ∀ fuel addr cwb remaining k,
      addr_end ≤ addr + fuel → cwb ≤ size →
      addr + (size - cwb) = addr_end →
      1 ≤ remaining → remaining ≤ 256 → (addr + remaining) % 256 = 0 →
      ∀ c ∈ subInstrs (writeLoop hal src size addr_end fuel addr cwb
          remaining k).2.1,
        1 ≤ c.2.length ∧ c.2.length ≤ 255 ∧
        c.1 / 256 = (c.1 + c.2.length - 1) / 256 := by
  have hend24 : W25Q128FV_FLASH_MEMORY_TOTAL_SIZE_IN_BYTES = 16731136 := rfl
  intro fuel
  induction fuel with
  | zero =>
    intro addr cwb remaining k haf hcwb haddr hr1 hr2 hmod
    have hstop : ¬ addr < addr_end := by omega
    rw [writeLoop, if_neg hstop]
    simp [subInstrs]
  | succ fuel ih =>
    intro addr cwb remaining k haf hcwb haddr hr1 hr2 hmod
    by_cases hlt : addr < addr_end
    · have hcwblt : cwb < size := by omega
      obtain ⟨C, R, hst, hC1, hC2, hCrem, hC255, hR1, hR2, hRmod, hAm⟩ :=
        writeStep_chunk size cwb remaining addr hcwblt hr1 hr2 hmod
      rw [writeLoop, if_pos hlt]
      have hCsub : cwb + C - cwb = C := by omega
      simp only [hst, hCsub]
      have hplen : (List.take C (List.drop cwb src)).length = C := by
        simp [List.length_take, List.length_drop]
        omega
      have hrec : addr / 65536 % 256 * 65536 + addr / 256 % 256 * 256 +
          addr % 256 = addr := addr_bytes_recover addr (by omega)
      by_cases hwe : HAL_ret_handler (hal k) = W25Q128FV_EC_OK
      · rw [if_neg (by simp [hwe])]
        by_cases hpp : HAL_ret_handler (hal (k + 1)) = W25Q128FV_EC_OK
        · rw [if_neg (by simp [hpp])]
          by_cases hwd : HAL_ret_handler (hal (k + 2)) = W25Q128FV_EC_OK
          · rw [if_neg (by simp [hwd])]
            intro c hc
            simp [subInstrs, set_cs_pin_low, set_cs_pin_high,
              W25Q128FV_WRITE_ENABLE_INSTRUCTION,
              W25Q128FV_WRITE_DISABLE_INSTRUCTION,
              W25Q128FV_PAGE_PROGRAM_INSTRUCTION] at hc
            rcases hc with hc | hc
            · subst hc
              simp only [hrec, hplen]
              exact ⟨by omega, by omega, by omega⟩
            · exact ih (addr + C) (cwb + C) R (k + 3) (by omega) (by omega)
                (by omega) (by omega) (by omega) (by omega) c hc
          · rw [if_pos hwd]
            intro c hc
            simp [subInstrs, set_cs_pin_low, set_cs_pin_high,
              W25Q128FV_WRITE_ENABLE_INSTRUCTION,
              W25Q128FV_WRITE_DISABLE_INSTRUCTION,
              W25Q128FV_PAGE_PROGRAM_INSTRUCTION] at hc
            subst hc
            simp only [hrec, hplen]
            exact ⟨by omega, by omega, by omega⟩
        · rw [if_pos hpp]
          intro c hc
          simp [subInstrs, set_cs_pin_low, set_cs_pin_high,
            W25Q128FV_WRITE_ENABLE_INSTRUCTION,
            W25Q128FV_WRITE_DISABLE_INSTRUCTION,
            W25Q128FV_PAGE_PROGRAM_INSTRUCTION] at hc
          subst hc
          simp only [hrec, hplen]
          exact ⟨by omega, by omega, by omega⟩
      · rw [if_pos hwe]
        simp [subInstrs, set_cs_pin_low, set_cs_pin_high]
    · rw [writeLoop, if_neg hlt]
      simp [subInstrs]

/-- The inner copy loop always consumes at least one source byte. -/
theorem pageWriteInnerLoop_gt (size : Nat) :
    ∀ remaining cwb, cwb < (pageWriteInnerLoop size cwb remaining).1 := by
  intro remaining
  induction remaining with
  | zero => intro cwb; rw [pageWriteInnerLoop]; omega
  | succ t ih =>
    intro cwb
    cases t with
    | zero => rw [pageWriteInnerLoop]; omega
    | succ s =>
      rw [pageWriteInnerLoop]
      by_cases hlast : cwb + 1 = size
      · rw [if_pos hlast]; omega
      · rw [if_neg hlast]
        have := ih (cwb + 1)
        omega

/-- Chip-select discipline of the write loop under an arbitrary transport:
the trace it emits is well bracketed starting and ending deasserted. -/
theorem writeLoop_csOk (hal : Nat → HAL_StatusTypeDef) (src : List Nat)
    (size addr_end : Nat) :
    ∀ fuel addr cwb remaining k,
      csOk false (writeLoop hal src size addr_end fuel addr cwb
        remaining k).2.1 = true := by
  intro fuel
  induction fuel with
  | zero =>
    intro addr cwb remaining k
    rw [writeLoop]
    by_cases hlt : addr < addr_end
    · rw [if_pos hlt]; rfl
    · rw [if_neg hlt]; rfl
  | succ fuel ih =>
    intro addr cwb remaining k
    rw [writeLoop]
    by_cases hlt : addr < addr_end
    · rw [if_pos hlt]
      by_cases hwe : HAL_ret_handler (hal k) = W25Q128FV_EC_OK
      · rw [if_neg (by simp [hwe])]
        by_cases hpp : HAL_ret_handler (hal (k + 1)) = W25Q128FV_EC_OK
        · rw [if_neg (by simp [hpp])]
          by_cases hwd : HAL_ret_handler (hal (k + 2)) = W25Q128FV_EC_OK
          · rw [if_neg (by simp [hwd])]
            simp only [set_cs_pin_low, set_cs_pin_high, List.cons_append,
              List.nil_append, List.append_assoc]
            simp only [csOk, Bool.not_false, Bool.true_and, Bool.and_true]
            exact ih (addr + ((if remaining = W25Q128FV_PAGE_SIZE_IN_BYTES then
                (cwb + 1, W25Q128FV_PAGE_SIZE_IN_BYTES - 1)
              else pageWriteInnerLoop size cwb remaining).1 - cwb)) _ _ (k + 3)
          · rw [if_pos hwd]
            simp [csOk, set_cs_pin_low, set_cs_pin_high]
        · rw [if_pos hpp]
          simp [csOk, set_cs_pin_low, set_cs_pin_high]
      · rw [if_pos hwe]
        simp [csOk, set_cs_pin_low, set_cs_pin_high]
    · rw [if_neg hlt]; rfl

/-- Failure accounting of the write loop under an arbitrary transport:
transport calls are consumed in order (`kp` is the next free oracle index on
return), one per `spiTransmit`; every consumed call before the last one
succeeded; on `W25Q128FV_EC_OK` every consumed call succeeded; and on any
other result the last consumed call is the failing one, the loop stops
there, and the result is that call's own mapped status if it was the
page-program transmit (position 1 of each 3-call iteration) and
`W25Q128FV_EC_ERR` if it was the write-enable or write-disable transmit. -/
theorem writeLoop_result_spec (hal : Nat → HAL_StatusTypeDef) (src : List Nat)
    (size addr_end : Nat) :
    ∀ fuel addr cwb remaining k res tr kp,
      addr_end ≤ addr + fuel →
      writeLoop hal src size addr_end fuel addr cwb remaining k =
        (res, tr, kp) →
      k ≤ kp ∧ txCount tr = kp - k ∧
      (∀ i, k ≤ i → i + 1 < kp →
        HAL_ret_handler (hal i) = W25Q128FV_EC_OK) ∧
      (res = W25Q128FV_EC_OK → ∀ i, k ≤ i → i < kp →
        HAL_ret_handler (hal i) = W25Q128FV_EC_OK) ∧
      (res ≠ W25Q128FV_EC_OK → k < kp ∧
        HAL_ret_handler (hal (kp - 1)) ≠ W25Q128FV_EC_OK ∧
        res = (if (kp - 1 - k) % 3 = 1 then HAL_ret_handler (hal (kp - 1))
          else W25Q128FV_EC_ERR)) := by
  intro fuel
  induction fuel with
  | zero =>
    intro addr cwb remaining k res tr kp haf heq
    have hstop : ¬ addr < addr_end := by omega
    rw [writeLoop, if_neg hstop] at heq
    injection heq with h1 h23
    injection h23 with h2 h3
    subst h1
    subst h2
    subst h3
    refine ⟨Nat.le_refl k, by simp [txCount], ?_, ?_, ?_⟩
    · intro i h1 h2
      omega
    · intro _ i h1 h2
      omega
    · intro h
      exact absurd rfl h
  | succ fuel ih =>
    intro addr cwb remaining k res tr kp haf heq
    rw [writeLoop] at heq
    by_cases hlt : addr < addr_end
    · rw [if_pos hlt] at heq
      by_cases hwe : HAL_ret_handler (hal k) = W25Q128FV_EC_OK
      · rw [if_neg (by simp [hwe])] at heq
        by_cases hpp : HAL_ret_handler (hal (k + 1)) = W25Q128FV_EC_OK
        · rw [if_neg (by simp [hpp])] at heq
          by_cases hwd : HAL_ret_handler (hal (k + 2)) = W25Q128FV_EC_OK
          · rw [if_neg (by simp [hwd])] at heq
            have hch : cwb + 1 ≤
                (if remaining = W25Q128FV_PAGE_SIZE_IN_BYTES then
                    (cwb + 1, W25Q128FV_PAGE_SIZE_IN_BYTES - 1)
                  else pageWriteInnerLoop size cwb remaining).1 := by
              by_cases hpb : remaining = W25Q128FV_PAGE_SIZE_IN_BYTES
              · rw [if_pos hpb]
              · rw [if_neg hpb]
                have := pageWriteInnerLoop_gt size remaining cwb
                omega
            rcases hq : writeLoop hal src size addr_end fuel
                (addr + ((if remaining = W25Q128FV_PAGE_SIZE_IN_BYTES then
                    (cwb + 1, W25Q128FV_PAGE_SIZE_IN_BYTES - 1)
                  else pageWriteInnerLoop size cwb remaining).1 - cwb))
                (if remaining = W25Q128FV_PAGE_SIZE_IN_BYTES then
                    (cwb + 1, W25Q128FV_PAGE_SIZE_IN_BYTES - 1)
                  else pageWriteInnerLoop size cwb remaining).1
                (if remaining = W25Q128FV_PAGE_SIZE_IN_BYTES then
                    (cwb + 1, W25Q128FV_PAGE_SIZE_IN_BYTES - 1)
                  else pageWriteInnerLoop size cwb remaining).2
                (k + 3) with ⟨res1, tr1, kp1⟩
            obtain ⟨ih1, ih2, ih3, ih4, ih5⟩ := ih
              (addr + ((if remaining = W25Q128FV_PAGE_SIZE_IN_BYTES then
                  (cwb + 1, W25Q128FV_PAGE_SIZE_IN_BYTES - 1)
                else pageWriteInnerLoop size cwb remaining).1 - cwb))
              (if remaining = W25Q128FV_PAGE_SIZE_IN_BYTES then
                  (cwb + 1, W25Q128FV_PAGE_SIZE_IN_BYTES - 1)
                else pageWriteInnerLoop size cwb remaining).1
              (if remaining = W25Q128FV_PAGE_SIZE_IN_BYTES then
                  (cwb + 1, W25Q128FV_PAGE_SIZE_IN_BYTES - 1)
                else pageWriteInnerLoop size cwb remaining).2
              (k + 3) res1 tr1 kp1 (by omega) hq
            simp only [hq] at heq
            injection heq with h1 h23
            injection h23 with h2 h3
            subst h1
            subst h2
            subst h3
            refine ⟨by omega, ?_, ?_, ?_, ?_⟩
            · simp only [set_cs_pin_low, set_cs_pin_high, List.cons_append,
                List.nil_append, List.append_assoc]
              simp only [txCount]
              omega
            · intro i h1 h2
              by_cases hik : i < k + 3
              · have : i = k ∨ i = k + 1 ∨ i = k + 2 := by omega
                rcases this with rfl | rfl | rfl
                · exact hwe
                · exact hpp
                · exact hwd
              · exact ih3 i (by omega) h2
            · intro h i h1 h2
              by_cases hik : i < k + 3
              · have : i = k ∨ i = k + 1 ∨ i = k + 2 := by omega
                rcases this with rfl | rfl | rfl
                · exact hwe
                · exact hpp
                · exact hwd
              · exact ih4 h i (by omega) h2
            · intro h
              obtain ⟨g1, g2, g3⟩ := ih5 h
              refine ⟨by omega, g2, ?_⟩
              have hmod3 : (kp1 - 1 - k) % 3 = (kp1 - 1 - (k + 3)) % 3 := by
                omega
              rw [hmod3]
              exact g3
          · rw [if_pos hwd] at heq
            injection heq with h1 h23
            injection h23 with h2 h3
            subst h1
            subst h2
            subst h3
            refine ⟨by omega, ?_, ?_, ?_, ?_⟩
            · simp [txCount, set_cs_pin_low, set_cs_pin_high]
            · intro i h1 h2
              have : i = k ∨ i = k + 1 := by omega
              rcases this with rfl | rfl
              · exact hwe
              · exact hpp
            · intro h
              simp at h
            · intro _
              have hk1 : k + 3 - 1 = k + 2 := by omega
              have hk2 : k + 3 - 1 - k = 2 := by omega
              rw [hk2, hk1]
              refine ⟨by omega, hwd, by simp⟩
        · rw [if_pos hpp] at heq
          injection heq with h1 h23
          injection h23 with h2 h3
          subst h1
          subst h2
          subst h3
          refine ⟨by omega, ?_, ?_, ?_, ?_⟩
          · simp [txCount, set_cs_pin_low, set_cs_pin_high]
          · intro i h1 h2
            have : i = k := by omega
            subst this
            exact hwe
          · intro h
            exact absurd h hpp
          · intro _
            have hk1 : k + 2 - 1 = k + 1 := by omega
            have hk2 : k + 2 - 1 - k = 1 := by omega
            rw [hk2, hk1]
            refine ⟨by omega, hpp, by simp⟩
      · rw [if_pos hwe] at heq
        injection heq with h1 h23
        injection h23 with h2 h3
        subst h1
        subst h2
        subst h3
        refine ⟨by omega, ?_, ?_, ?_, ?_⟩
        · simp [txCount, set_cs_pin_low, set_cs_pin_high]
        · intro i h1 h2
          omega
        · intro h
          simp at h
        · intro _
          have hk1 : k + 1 - 1 = k := by omega
          have hk2 : k + 1 - 1 - k = 0 := by omega
          rw [hk2, hk1]
          refine ⟨by omega, hwe, by simp⟩
    · rw [if_neg hlt] at heq
      injection heq with h1 h23
      injection h23 with h2 h3
      subst h1
      subst h2
      subst h3
      refine ⟨Nat.le_refl k, by simp [txCount], ?_, ?_, ?_⟩
      · intro i h1 h2
        omega
      · intro _ i h1 h2
        omega
      · intro h
        exact absurd rfl h

/-- Entry normalization of `w25q128fv_write_flash_memory`: for a `uint8_t`
page offset and a request whose true (non-wrapping) byte range fits the
device, all the uint32/uint16 truncations of lines 330-360 collapse and the
function is the write loop started at the resolved start address with
`256 - page_bytes_offset` writable bytes left in the first page. -/
theorem write_entry_norm (hal : Nat → HAL_StatusTypeDef)
    (start_page page_bytes_offset size : Nat) (src : List Nat)
    (hoff : page_bytes_offset < 256)
    (hval : start_page * 256 + page_bytes_offset + size ≤
      W25Q128FV_FLASH_MEMORY_TOTAL_SIZE_IN_BYTES) :
    w25q128fv_write_flash_memory hal start_page page_bytes_offset size src =
      ((writeLoop hal src size
          (start_page * 256 + page_bytes_offset + size) size
          (start_page * 256 + page_bytes_offset) 0
          (256 - page_bytes_offset) 0).1,
        (writeLoop hal src size
          (start_page * 256 + page_bytes_offset + size) size
          (start_page * 256 + page_bytes_offset) 0
          (256 - page_bytes_offset) 0).2.1) := by
  have hT : W25Q128FV_FLASH_MEMORY_TOTAL_SIZE_IN_BYTES = 16731136 := rfl
  have hP : W25Q128FV_PAGE_SIZE_IN_BYTES = 256 := rfl
  simp only [w25q128fv_write_flash_memory, hP]
  have h1 : (start_page * 256 + page_bytes_offset) % 4294967296 =
      start_page * 256 + page_bytes_offset := by omega
  rw [h1]
  have h2 : (start_page * 256 + page_bytes_offset + size) % 4294967296 =
      start_page * 256 + page_bytes_offset + size := by omega
  rw [h2]
  rw [if_neg (by omega)]
  have h3 : (start_page + page_bytes_offset / 256) % 4294967296 =
      start_page := by omega
  rw [h3]
  have h4 : start_page * 256 % 4294967296 = start_page * 256 := by omega
  rw [h4]
  have h5 : (start_page * 256 + page_bytes_offset + 4294967296 -
      start_page * 256) % 4294967296 = page_bytes_offset := by omega
  rw [h5]
  have h6 : (256 + 4294967296 - page_bytes_offset) % 4294967296 % 65536 =
      256 - page_bytes_offset := by omega
  rw [h6]
  rw [if_neg (by omega)]

/-- C1: for every validated write request (uint8 offset, resolved range
within device capacity, source buffer at least `size` bytes) under a
transport that always succeeds, the page-program sub-instructions emitted by
`w25q128fv_write_flash_memory` tile the address interval
`[start_address, start_address + size)` exactly — contiguous, non-empty,
non-overlapping, union equal to the interval — and the concatenation of
their payloads is exactly the first `size` bytes of the source buffer in
order. -/
theorem w25q128fv_write_splitter_covers_range
    (start_page page_bytes_offset size : Nat) (src : List Nat)
    (hoff : page_bytes_offset < 256)
    (hval : start_page * 256 + page_bytes_offset + size ≤
      W25Q128FV_FLASH_MEMORY_TOTAL_SIZE_IN_BYTES)
    (hsrc : size ≤ src.length) :
    chunksCoverB (start_page * 256 + page_bytes_offset)
      (subInstrs (w25q128fv_write_flash_memory halAllOk start_page
        page_bytes_offset size src).2)
      (start_page * 256 + page_bytes_offset + size) = true ∧
    ((subInstrs (w25q128fv_write_flash_memory halAllOk start_page
        page_bytes_offset size src).2).map Prod.snd).flatten =
      src.take size := by
  rw [write_entry_norm halAllOk start_page page_bytes_offset size src hoff
    hval]
  obtain ⟨c1, c2, c3⟩ := writeLoop_allOk_spec src size
    (start_page * 256 + page_bytes_offset + size) hval hsrc size
    (start_page * 256 + page_bytes_offset) 0 (256 - page_bytes_offset) 0
    (by omega) (by omega) (by omega) (by omega) (by omega) (by omega)
  refine ⟨c1, ?_⟩
  simpa using c2

/-- C1 witness: a concrete page-straddling write of 40 bytes starting at
page 2, offset 250. -/
theorem w25q128fv_write_splitter_covers_range_witness :
    (250 < 256 ∧
      2 * 256 + 250 + 40 ≤ W25Q128FV_FLASH_MEMORY_TOTAL_SIZE_IN_BYTES ∧
      40 ≤ (List.range 40).length) ∧
    (chunksCoverB (2 * 256 + 250)
      (subInstrs (w25q128fv_write_flash_memory halAllOk 2 250 40
        (List.range 40)).2)
      (2 * 256 + 250 + 40) = true ∧
    ((subInstrs (w25q128fv_write_flash_memory halAllOk 2 250 40
        (List.range 40)).2).map Prod.snd).flatten =
      (List.range 40).take 40) :=
  ⟨by decide,
    w25q128fv_write_splitter_covers_range 2 250 40 (List.range 40)
      (by decide) (by decide) (by decide)⟩

set_option maxRecDepth 8000 in
/-- C2 counterexample: the 300-byte write at page 0, offset 250 does NOT
split into three sub-instructions of 6, 256 and 38 bytes as the claim
states; the code emits five sub-instructions of 6, 1, 255, 1 and 37 bytes
(whenever the cursor reaches a page boundary the code programs a single
byte, lines 380-386, and its per-instruction payload ceiling is 255, not
256); likewise a write exactly filling one page from offset 0 produces two
sub-instructions (1 byte, then 255 bytes), not one of full page length. -/
theorem w25q128fv_write_chunk_sizes_counterexample :
    (subInstrs (w25q128fv_write_flash_memory halAllOk 0 250 300
        (List.range 300)).2).map (fun c => (c.1, c.2.length)) =
      [(250, 6), (256, 1), (257, 255), (512, 1), (513, 37)] ∧
    ¬ ((subInstrs (w25q128fv_write_flash_memory halAllOk 0 250 300
        (List.range 300)).2).map (fun c => (c.1, c.2.length)) =
      [(250, 6), (256, 256), (512, 38)]) ∧
    (subInstrs (w25q128fv_write_flash_memory halAllOk 0 0 256
        (List.range 256)).2).map (fun c => (c.1, c.2.length)) =
      [(0, 1), (1, 255)] ∧
    (subInstrs (w25q128fv_write_flash_memory halAllOk 0 0 256
        (List.range 256)).2).length ≠ 1 := by
  decide

/-- C2 amended: each emitted sub-instruction carries
`chunk = 1` byte when the cursor sits exactly on a page boundary
(`remaining_in_page = 256`) and `chunk = min remaining_in_page bytes_left`
bytes otherwise (the executable chunk law `amendedChunks`); in particular
the 300-byte write at page 0 offset 250 splits into five sub-instructions
of 6, 1, 255, 1, 37 bytes at addresses 250, 256, 257, 512, 513. -/
theorem w25q128fv_write_chunk_law
    (start_page page_bytes_offset size : Nat) (src : List Nat)
    (hoff : page_bytes_offset < 256)
    (hval : start_page * 256 + page_bytes_offset + size ≤
      W25Q128FV_FLASH_MEMORY_TOTAL_SIZE_IN_BYTES)
    (hsrc : size ≤ src.length) :
    (subInstrs (w25q128fv_write_flash_memory halAllOk start_page
        page_bytes_offset size src).2).map (fun c => (c.1, c.2.length)) =
      amendedChunks (start_page * 256 + page_bytes_offset) size
        (256 - page_bytes_offset) := by
  rw [write_entry_norm halAllOk start_page page_bytes_offset size src hoff
    hval]
  obtain ⟨c1, c2, c3⟩ := writeLoop_allOk_spec src size
    (start_page * 256 + page_bytes_offset + size) hval hsrc size
    (start_page * 256 + page_bytes_offset) 0 (256 - page_bytes_offset) 0
    (by omega) (by omega) (by omega) (by omega) (by omega) (by omega)
  simpa using c3

set_option maxRecDepth 4000 in
/-- C2 witness: the amended chunk law evaluated on the spec's 300-byte
scenario, with the resulting five (address, length) pairs computed
explicitly. -/
theorem w25q128fv_write_chunk_law_witness :
    (250 < 256 ∧
      0 * 256 + 250 + 300 ≤ W25Q128FV_FLASH_MEMORY_TOTAL_SIZE_IN_BYTES ∧
      300 ≤ (List.range 300).length) ∧
    (subInstrs (w25q128fv_write_flash_memory halAllOk 0 250 300
        (List.range 300)).2).map (fun c => (c.1, c.2.length)) =
      amendedChunks (0 * 256 + 250) 300 (256 - 250) ∧
    amendedChunks (0 * 256 + 250) 300 (256 - 250) =
      [(250, 6), (256, 1), (257, 255), (512, 1), (513, 37)] :=
  ⟨by decide,
    w25q128fv_write_chunk_law 0 250 300 (List.range 300) (by decide)
      (by decide) (by decide),
    by
      rw [amendedChunks]
      norm_num [W25Q128FV_PAGE_SIZE_IN_BYTES]
      rw [amendedChunks]
      norm_num [W25Q128FV_PAGE_SIZE_IN_BYTES]
      rw [amendedChunks]
      norm_num [W25Q128FV_PAGE_SIZE_IN_BYTES]
      rw [amendedChunks]
      norm_num [W25Q128FV_PAGE_SIZE_IN_BYTES]
      rw [amendedChunks]
      norm_num [W25Q128FV_PAGE_SIZE_IN_BYTES]
      rw [amendedChunks]
      norm_num [W25Q128FV_PAGE_SIZE_IN_BYTES]⟩

/-- C3: for every validated write request, under any transport behaviour,
every emitted page-program sub-instruction has a payload of 1 to 255 bytes
(the device's per-instruction payload ceiling, line 11), never crosses a
page boundary (`sub_start / page_size = (sub_start + sub_length - 1) /
page_size`), and its 4-byte header plus payload fit the fixed 259-byte
`page_program_instruction` buffer, so every index into that buffer stays in
bounds. -/
theorem w25q128fv_write_page_safety (hal : Nat → HAL_StatusTypeDef)
    (start_page page_bytes_offset size : Nat) (src : List Nat)
    (hoff : page_bytes_offset < 256)
    (hval : start_page * 256 + page_bytes_offset + size ≤
      W25Q128FV_FLASH_MEMORY_TOTAL_SIZE_IN_BYTES)
    (hsrc : size ≤ src.length) :
    ∀ c ∈ subInstrs (w25q128fv_write_flash_memory hal start_page
        page_bytes_offset size src).2,
      1 ≤ c.2.length ∧
      c.2.length ≤ W25Q128FV_MAX_CONSECUTIVE_PROGRAMMABLE_BYTES ∧
      c.1 / W25Q128FV_PAGE_SIZE_IN_BYTES =
        (c.1 + c.2.length - 1) / W25Q128FV_PAGE_SIZE_IN_BYTES ∧
      4 + c.2.length ≤
        W25Q128FV_PAGE_PROGRAM_INSTRUCTION_MAX_SIZE_IN_BYTES := by
  rw [write_entry_norm hal start_page page_bytes_offset size src hoff hval]
  intro c hc
  obtain ⟨g1, g2, g3⟩ := writeLoop_page_safe hal src size
    (start_page * 256 + page_bytes_offset + size) hval hsrc size
    (start_page * 256 + page_bytes_offset) 0 (256 - page_bytes_offset) 0
    (by omega) (by omega) (by omega) (by omega) (by omega) (by omega) c hc
  have h1 : W25Q128FV_MAX_CONSECUTIVE_PROGRAMMABLE_BYTES = 255 := rfl
  have h2 : W25Q128FV_PAGE_SIZE_IN_BYTES = 256 := rfl
  have h3 : W25Q128FV_PAGE_PROGRAM_INSTRUCTION_MAX_SIZE_IN_BYTES = 259 := rfl
  refine ⟨g1, by omega, by rw [h2]; exact g3, by omega⟩

set_option maxRecDepth 8000 in
/-- C3 witness: the 300-byte write at page 1, offset 250 (five
sub-instructions). -/
theorem w25q128fv_write_page_safety_witness :
    (250 < 256 ∧
      1 * 256 + 250 + 300 ≤ W25Q128FV_FLASH_MEMORY_TOTAL_SIZE_IN_BYTES ∧
      300 ≤ (List.range 300).length) ∧
    ∀ c ∈ subInstrs (w25q128fv_write_flash_memory halAllOk 1 250 300
        (List.range 300)).2,
      1 ≤ c.2.length ∧
      c.2.length ≤ W25Q128FV_MAX_CONSECUTIVE_PROGRAMMABLE_BYTES ∧
      c.1 / W25Q128FV_PAGE_SIZE_IN_BYTES =
        (c.1 + c.2.length - 1) / W25Q128FV_PAGE_SIZE_IN_BYTES ∧
      4 + c.2.length ≤
        W25Q128FV_PAGE_PROGRAM_INSTRUCTION_MAX_SIZE_IN_BYTES :=
  ⟨by decide,
    w25q128fv_write_page_safety halAllOk 1 250 300 (List.range 300)
      (by decide) (by decide) (by decide)⟩

/-- C4: any write, read or fast-read request whose resolved (uint32) byte
range end exceeds the device capacity is rejected with `W25Q128FV_EC_ERR`
and an empty bus trace — no SPI transmit or receive, no chip-select toggle,
no write-enable — and `w25q128fv_erase_sector` rejects every sector index
above `W25Q128FV_TOTAL_SECTORS_MINUS_ONE` (that is, at or beyond the sector
count) the same way. -/
theorem w25q128fv_validation_rejects_before_bus :
    ∀ (hal : Nat → HAL_StatusTypeDef) (t r h1 h2 h3 : HAL_StatusTypeDef)
      (start_page page_bytes_offset size sector_number : Nat)
      (src : List Nat),
      (((start_page * W25Q128FV_PAGE_SIZE_IN_BYTES + page_bytes_offset) %
            4294967296 + size) % 4294967296 >
          W25Q128FV_FLASH_MEMORY_TOTAL_SIZE_IN_BYTES →
        w25q128fv_write_flash_memory hal start_page page_bytes_offset size
          src = (W25Q128FV_EC_ERR, [])) ∧
      (((start_page * W25Q128FV_PAGE_SIZE_IN_BYTES + page_bytes_offset) %
            4294967296 + size) % 4294967296 >
          W25Q128FV_FLASH_MEMORY_TOTAL_SIZE_IN_BYTES →
        w25q128fv_read_flash_memory t r start_page page_bytes_offset size =
          (W25Q128FV_EC_ERR, [])) ∧
      (((start_page * W25Q128FV_PAGE_SIZE_IN_BYTES + page_bytes_offset) %
            4294967296 + size) % 4294967296 >
          W25Q128FV_FLASH_MEMORY_TOTAL_SIZE_IN_BYTES →
        w25q128fv_fast_read_flash_memory t r start_page page_bytes_offset
          size = (W25Q128FV_EC_ERR, [])) ∧
      (W25Q128FV_TOTAL_SECTORS_MINUS_ONE < sector_number →
        w25q128fv_erase_sector h1 h2 h3 sector_number =
          (W25Q128FV_EC_ERR, [])) := by
  intro hal t r h1 h2 h3 start_page page_bytes_offset size sector_number src
  refine ⟨?_, ?_, ?_, ?_⟩
  · intro h
    simp only [w25q128fv_write_flash_memory]
    rw [if_pos h]
  · intro h
    simp only [w25q128fv_read_flash_memory]
    rw [if_pos h]
  · intro h
    simp only [w25q128fv_fast_read_flash_memory]
    rw [if_pos h]
  · intro h
    simp only [w25q128fv_erase_sector]
    rw [if_pos h]

/-- C4 witness: an out-of-range request (page 70000 resolves past the end
of the device) and sector 4085 (one past the last valid sector). -/
theorem w25q128fv_validation_rejects_before_bus_witness :
    (((70000 * W25Q128FV_PAGE_SIZE_IN_BYTES + 0) % 4294967296 + 5) %
        4294967296 > W25Q128FV_FLASH_MEMORY_TOTAL_SIZE_IN_BYTES ∧
      W25Q128FV_TOTAL_SECTORS_MINUS_ONE < 4085) ∧
    w25q128fv_write_flash_memory halAllOk 70000 0 5 [1, 2, 3, 4, 5] =
      (W25Q128FV_EC_ERR, []) ∧
    w25q128fv_read_flash_memory HAL_OK HAL_OK 70000 0 5 =
      (W25Q128FV_EC_ERR, []) ∧
    w25q128fv_fast_read_flash_memory HAL_OK HAL_OK 70000 0 5 =
      (W25Q128FV_EC_ERR, []) ∧
    w25q128fv_erase_sector HAL_OK HAL_OK HAL_OK 4085 =
      (W25Q128FV_EC_ERR, []) :=
  ⟨by decide,
    (w25q128fv_validation_rejects_before_bus halAllOk HAL_OK HAL_OK HAL_OK
      HAL_OK HAL_OK 70000 0 5 4085 [1, 2, 3, 4, 5]).1 (by decide),
    (w25q128fv_validation_rejects_before_bus halAllOk HAL_OK HAL_OK HAL_OK
      HAL_OK HAL_OK 70000 0 5 4085 [1, 2, 3, 4, 5]).2.1 (by decide),
    (w25q128fv_validation_rejects_before_bus halAllOk HAL_OK HAL_OK HAL_OK
      HAL_OK HAL_OK 70000 0 5 4085 [1, 2, 3, 4, 5]).2.2.1 (by decide),
    (w25q128fv_validation_rejects_before_bus halAllOk HAL_OK HAL_OK HAL_OK
      HAL_OK HAL_OK 70000 0 5 4085 [1, 2, 3, 4, 5]).2.2.2 (by decide)⟩

/-- C5 counterexample: with a transport stub that reports busy, the
write-enable step of a 1-byte write reports `W25Q128FV_EC_NR`, but the
caller receives `W25Q128FV_EC_ERR` (lines 366-370 coerce it), so the
function does not return "that same result value" as the claim states. -/
theorem w25q128fv_write_error_propagation_counterexample :
    (w25q128fv_write_flash_memory (fun _ => HAL_BUSY) 0 0 1 [171]).1 =
      W25Q128FV_EC_ERR ∧
    HAL_ret_handler ((fun _ => HAL_BUSY) 0) = W25Q128FV_EC_NR ∧
    W25Q128FV_EC_ERR ≠ W25Q128FV_EC_NR := by
  decide

/-- Entry form of `w25q128fv_write_flash_memory` under the weakest
validation hypothesis (the uint32-resolved end within capacity, exactly the
check of lines 335-338): the function is the write loop started with fuel
`size` at the uint32-resolved start address and the uint16
remaining-in-page value of lines 341-360. -/
theorem write_entry_loop (hal : Nat → HAL_StatusTypeDef)
    (start_page page_bytes_offset size : Nat) (src : List Nat)
    (hval : ((start_page * W25Q128FV_PAGE_SIZE_IN_BYTES +
        page_bytes_offset) % 4294967296 + size) % 4294967296 ≤
      W25Q128FV_FLASH_MEMORY_TOTAL_SIZE_IN_BYTES) :
    w25q128fv_write_flash_memory hal start_page page_bytes_offset size src =
      ((writeLoop hal src size
          (((start_page * W25Q128FV_PAGE_SIZE_IN_BYTES +
              page_bytes_offset) % 4294967296 + size) % 4294967296) size
          ((start_page * W25Q128FV_PAGE_SIZE_IN_BYTES +
            page_bytes_offset) % 4294967296) 0
          (if (W25Q128FV_PAGE_SIZE_IN_BYTES + 4294967296 -
              ((start_page * W25Q128FV_PAGE_SIZE_IN_BYTES +
                  page_bytes_offset) % 4294967296 + 4294967296 -
                (start_page + page_bytes_offset /
                    W25Q128FV_PAGE_SIZE_IN_BYTES) % 4294967296 *
                  W25Q128FV_PAGE_SIZE_IN_BYTES % 4294967296) %
                4294967296) % 4294967296 % 65536 = 0 then
            W25Q128FV_PAGE_SIZE_IN_BYTES
          else (W25Q128FV_PAGE_SIZE_IN_BYTES + 4294967296 -
              ((start_page * W25Q128FV_PAGE_SIZE_IN_BYTES +
                  page_bytes_offset) % 4294967296 + 4294967296 -
                (start_page + page_bytes_offset /
                    W25Q128FV_PAGE_SIZE_IN_BYTES) % 4294967296 *
                  W25Q128FV_PAGE_SIZE_IN_BYTES % 4294967296) %
                4294967296) % 4294967296 % 65536) 0).1,
        (writeLoop hal src size
          (((start_page * W25Q128FV_PAGE_SIZE_IN_BYTES +
              page_bytes_offset) % 4294967296 + size) % 4294967296) size
          ((start_page * W25Q128FV_PAGE_SIZE_IN_BYTES +
            page_bytes_offset) % 4294967296) 0
          (if (W25Q128FV_PAGE_SIZE_IN_BYTES + 4294967296 -
              ((start_page * W25Q128FV_PAGE_SIZE_IN_BYTES +
                  page_bytes_offset) % 4294967296 + 4294967296 -
                (start_page + page_bytes_offset /
                    W25Q128FV_PAGE_SIZE_IN_BYTES) % 4294967296 *
                  W25Q128FV_PAGE_SIZE_IN_BYTES % 4294967296) %
                4294967296) % 4294967296 % 65536 = 0 then
            W25Q128FV_PAGE_SIZE_IN_BYTES
          else (W25Q128FV_PAGE_SIZE_IN_BYTES + 4294967296 -
              ((start_page * W25Q128FV_PAGE_SIZE_IN_BYTES +
                  page_bytes_offset) % 4294967296 + 4294967296 -
                (start_page + page_bytes_offset /
                    W25Q128FV_PAGE_SIZE_IN_BYTES) % 4294967296 *
                  W25Q128FV_PAGE_SIZE_IN_BYTES % 4294967296) %
                4294967296) % 4294967296 % 65536) 0).2.1) := by
  simp only [w25q128fv_write_flash_memory]
  rw [if_neg (by omega)]

/-- Corollary of the loop accounting at the entry state (oracle index 0):
the form of the abort behaviour visible through the public write function. -/
theorem writeLoop_entry_result (hal : Nat → HAL_StatusTypeDef)
    (src : List Nat) (size A E REM : Nat) (hle : E ≤ A + size) :
    (∀ i, i + 1 < txCount (writeLoop hal src size E size A 0 REM 0).2.1 →
      HAL_ret_handler (hal i) = W25Q128FV_EC_OK) ∧
    ((writeLoop hal src size E size A 0 REM 0).1 = W25Q128FV_EC_OK →
      ∀ i, i < txCount (writeLoop hal src size E size A 0 REM 0).2.1 →
        HAL_ret_handler (hal i) = W25Q128FV_EC_OK) ∧
    ((writeLoop hal src size E size A 0 REM 0).1 ≠ W25Q128FV_EC_OK →
      1 ≤ txCount (writeLoop hal src size E size A 0 REM 0).2.1 ∧
      HAL_ret_handler (hal
        (txCount (writeLoop hal src size E size A 0 REM 0).2.1 - 1)) ≠
        W25Q128FV_EC_OK ∧
      (writeLoop hal src size E size A 0 REM 0).1 =
        (if (txCount (writeLoop hal src size E size A 0 REM 0).2.1 - 1) %
            3 = 1 then
          HAL_ret_handler (hal
            (txCount (writeLoop hal src size E size A 0 REM 0).2.1 - 1))
        else W25Q128FV_EC_ERR)) := by
  rcases hq : writeLoop hal src size E size A 0 REM 0 with ⟨res1, tr1, kp1⟩
  obtain ⟨ih1, ih2, ih3, ih4, ih5⟩ := writeLoop_result_spec hal src size E
    size A 0 REM 0 res1 tr1 kp1 (by omega) hq
  simp only [hq]
  have htc : txCount tr1 = kp1 := by omega
  refine ⟨?_, ?_, ?_⟩
  · intro i hi
    exact ih3 i (by omega) (by omega)
  · intro h i hi
    exact ih4 h i (by omega) (by omega)
  · intro h
    obtain ⟨g1, g2, g3⟩ := ih5 h
    have h1 : txCount tr1 - 1 = kp1 - 1 := by omega
    have h2 : kp1 - 1 - 0 = kp1 - 1 := by omega
    rw [h2] at g3
    rw [h1]
    exact ⟨by omega, g2, g3⟩

/-- C5 amended: every write whose resolved range passes validation aborts
at the first transport step (write-enable, page-program or write-disable
transmit, in that repeating order) that maps to anything other than
`W25Q128FV_EC_OK`: every transport call before the failing one succeeded
and none is issued after it.  The value returned to the caller is the
failing step's own mapped result when the failing step is the page-program
transmit (position 1 of each 3-call iteration), but a failing write-enable
or write-disable surfaces as `W25Q128FV_EC_ERR` regardless of its own
mapped result (lines 366-370 and 422-426). -/
theorem w25q128fv_write_abort_on_first_failure
    (hal : Nat → HAL_StatusTypeDef)
    (start_page page_bytes_offset size : Nat) (src : List Nat)
    (hval : ((start_page * W25Q128FV_PAGE_SIZE_IN_BYTES +
        page_bytes_offset) % 4294967296 + size) % 4294967296 ≤
      W25Q128FV_FLASH_MEMORY_TOTAL_SIZE_IN_BYTES) :
    (∀ i, i + 1 < txCount (w25q128fv_write_flash_memory hal start_page
        page_bytes_offset size src).2 →
      HAL_ret_handler (hal i) = W25Q128FV_EC_OK) ∧
    ((w25q128fv_write_flash_memory hal start_page page_bytes_offset size
        src).1 = W25Q128FV_EC_OK →
      ∀ i, i < txCount (w25q128fv_write_flash_memory hal start_page
          page_bytes_offset size src).2 →
        HAL_ret_handler (hal i) = W25Q128FV_EC_OK) ∧
    ((w25q128fv_write_flash_memory hal start_page page_bytes_offset size
        src).1 ≠ W25Q128FV_EC_OK →
      1 ≤ txCount (w25q128fv_write_flash_memory hal start_page
        page_bytes_offset size src).2 ∧
      HAL_ret_handler (hal (txCount (w25q128fv_write_flash_memory hal
        start_page page_bytes_offset size src).2 - 1)) ≠
        W25Q128FV_EC_OK ∧
      (w25q128fv_write_flash_memory hal start_page page_bytes_offset size
        src).1 =
        (if (txCount (w25q128fv_write_flash_memory hal start_page
            page_bytes_offset size src).2 - 1) % 3 = 1 then
          HAL_ret_handler (hal (txCount (w25q128fv_write_flash_memory hal
            start_page page_bytes_offset size src).2 - 1))
        else W25Q128FV_EC_ERR)) := by
  rw [write_entry_loop hal start_page page_bytes_offset size src hval]
  exact writeLoop_entry_result hal src size
    ((start_page * W25Q128FV_PAGE_SIZE_IN_BYTES + page_bytes_offset) %
      4294967296)
    (((start_page * W25Q128FV_PAGE_SIZE_IN_BYTES + page_bytes_offset) %
      4294967296 + size) % 4294967296) _ (by omega)

/-- C5 witness: a 1-byte write whose page-program transmit (oracle index 1)
reports busy; the abort law then gives exactly two consumed transport calls
and a result equal to that step's own mapped status. -/
theorem w25q128fv_write_abort_on_first_failure_witness :
    (((0 * W25Q128FV_PAGE_SIZE_IN_BYTES + 0) % 4294967296 + 1) %
        4294967296 ≤ W25Q128FV_FLASH_MEMORY_TOTAL_SIZE_IN_BYTES) ∧
    ((∀ i, i + 1 < txCount (w25q128fv_write_flash_memory
        (fun i => if i = 1 then HAL_BUSY else HAL_OK) 0 0 1 [5]).2 →
      HAL_ret_handler ((fun i => if i = 1 then HAL_BUSY else HAL_OK) i) =
        W25Q128FV_EC_OK) ∧
    ((w25q128fv_write_flash_memory
        (fun i => if i = 1 then HAL_BUSY else HAL_OK) 0 0 1 [5]).1 =
        W25Q128FV_EC_OK →
      ∀ i, i < txCount (w25q128fv_write_flash_memory
          (fun i => if i = 1 then HAL_BUSY else HAL_OK) 0 0 1 [5]).2 →
        HAL_ret_handler ((fun i => if i = 1 then HAL_BUSY else HAL_OK) i) =
          W25Q128FV_EC_OK) ∧
    ((w25q128fv_write_flash_memory
        (fun i => if i = 1 then HAL_BUSY else HAL_OK) 0 0 1 [5]).1 ≠
        W25Q128FV_EC_OK →
      1 ≤ txCount (w25q128fv_write_flash_memory
        (fun i => if i = 1 then HAL_BUSY else HAL_OK) 0 0 1 [5]).2 ∧
      HAL_ret_handler ((fun i => if i = 1 then HAL_BUSY else HAL_OK)
        (txCount (w25q128fv_write_flash_memory
          (fun i => if i = 1 then HAL_BUSY else HAL_OK) 0 0 1 [5]).2 - 1))
        ≠ W25Q128FV_EC_OK ∧
      (w25q128fv_write_flash_memory
        (fun i => if i = 1 then HAL_BUSY else HAL_OK) 0 0 1 [5]).1 =
        (if (txCount (w25q128fv_write_flash_memory
            (fun i => if i = 1 then HAL_BUSY else HAL_OK) 0 0 1 [5]).2 -
            1) % 3 = 1 then
          HAL_ret_handler ((fun i => if i = 1 then HAL_BUSY else HAL_OK)
            (txCount (w25q128fv_write_flash_memory
              (fun i => if i = 1 then HAL_BUSY else HAL_OK) 0 0 1
              [5]).2 - 1))
        else W25Q128FV_EC_ERR))) :=
  ⟨by decide,
    w25q128fv_write_abort_on_first_failure
      (fun i => if i = 1 then HAL_BUSY else HAL_OK) 0 0 1 [5] (by decide)⟩

/-- C6: when both transport calls succeed, `w25q128fv_read_id` returns
`W25Q128FV_EC_NR` exactly when the three received JEDEC bytes are all
zero; for any other byte triple it returns `W25Q128FV_EC_OK` and stores
the bytes packed big-endian into a 24-bit identifier
(`resp0 * 2^16 + resp1 * 2^8 + resp2`). -/
theorem w25q128fv_read_id_packs_jedec_bytes (resp0 resp1 resp2 : Nat)
    (h0 : resp0 < 256) (h1 : resp1 < 256) (h2 : resp2 < 256) :
    ((w25q128fv_read_id HAL_OK HAL_OK resp0 resp1 resp2).1 =
        W25Q128FV_EC_NR ↔ (resp0 = 0 ∧ resp1 = 0 ∧ resp2 = 0)) ∧
    (¬ (resp0 = 0 ∧ resp1 = 0 ∧ resp2 = 0) →
      (w25q128fv_read_id HAL_OK HAL_OK resp0 resp1 resp2).1 =
        W25Q128FV_EC_OK ∧
      (w25q128fv_read_id HAL_OK HAL_OK resp0 resp1 resp2).2.1 =
        some (resp0 * 65536 + resp1 * 256 + resp2)) := by
  by_cases hz : resp0 = 0 ∧ resp1 = 0 ∧ resp2 = 0
  · simp [w25q128fv_read_id, HAL_ret_handler, hz]
  · refine ⟨by simp [w25q128fv_read_id, HAL_ret_handler, hz], fun _ => ?_⟩
    refine ⟨by simp [w25q128fv_read_id, HAL_ret_handler, hz], ?_⟩
    have hid : (w25q128fv_read_id HAL_OK HAL_OK resp0 resp1 resp2).2.1 =
        some (resp0 <<< 16 ||| resp1 <<< 8 ||| resp2) := by
      simp [w25q128fv_read_id, HAL_ret_handler, hz]
    rw [hid, jedec_pack resp0 resp1 resp2 h0 h1 h2]

/-- C6 witness: the spec's example bytes 0xEF, 0x40, 0x18 pack to the
identifier 0xEF4018. -/
theorem w25q128fv_read_id_packs_jedec_bytes_witness :
    (239 < 256 ∧ 64 < 256 ∧ 24 < 256) ∧
    (((w25q128fv_read_id HAL_OK HAL_OK 239 64 24).1 = W25Q128FV_EC_NR ↔
        (239 = 0 ∧ 64 = 0 ∧ 24 = 0)) ∧
      (¬ ((239 : Nat) = 0 ∧ (64 : Nat) = 0 ∧ (24 : Nat) = 0) →
        (w25q128fv_read_id HAL_OK HAL_OK 239 64 24).1 =
          W25Q128FV_EC_OK ∧
        (w25q128fv_read_id HAL_OK HAL_OK 239 64 24).2.1 =
          some (239 * 65536 + 64 * 256 + 24))) ∧
    239 * 65536 + 64 * 256 + 24 = 0xEF4018 :=
  ⟨by decide,
    w25q128fv_read_id_packs_jedec_bytes 239 64 24 (by decide) (by decide)
      (by decide),
    by decide⟩

/-- C7: `HAL_ret_handler` is a total three-valued mapping of the four
transport outcomes: busy and timeout map to `W25Q128FV_EC_NR`, a transport
error maps to `W25Q128FV_EC_ERR`, success maps to `W25Q128FV_EC_OK`, and
every outcome lands on exactly the expected one of the three values. -/
theorem HAL_ret_handler_total_mapping :
    ∀ s : HAL_StatusTypeDef,
      (HAL_ret_handler s = W25Q128FV_EC_NR ↔
        (s = HAL_BUSY ∨ s = HAL_TIMEOUT)) ∧
      (HAL_ret_handler s = W25Q128FV_EC_ERR ↔ s = HAL_ERROR) ∧
      (HAL_ret_handler s = W25Q128FV_EC_OK ↔ s = HAL_OK) ∧
      (HAL_ret_handler s = W25Q128FV_EC_NR ∨
        HAL_ret_handler s = W25Q128FV_EC_ERR ∨
        HAL_ret_handler s = W25Q128FV_EC_OK) := by
  intro s
  cases s <;> simp [HAL_ret_handler]

/-- C9: a write of zero bytes from any start position whose resolved
(uint32) start address is within the device returns `W25Q128FV_EC_OK` with
an empty bus trace: no write-enable or write-disable, no page-program
transmission, no chip-select toggle. -/
theorem w25q128fv_write_zero_size_noop :
    ∀ (hal : Nat → HAL_StatusTypeDef) (start_page page_bytes_offset : Nat)
      (src : List Nat),
      (start_page * W25Q128FV_PAGE_SIZE_IN_BYTES + page_bytes_offset) %
          4294967296 ≤ W25Q128FV_FLASH_MEMORY_TOTAL_SIZE_IN_BYTES →
      w25q128fv_write_flash_memory hal start_page page_bytes_offset 0 src =
        (W25Q128FV_EC_OK, []) := by
  intro hal start_page page_bytes_offset src h
  simp only [w25q128fv_write_flash_memory]
  rw [if_neg (by omega)]
  rw [writeLoop, if_neg (by omega)]

/-- C9 witness: a zero-length write at page 3, offset 7. -/
theorem w25q128fv_write_zero_size_noop_witness :
    ((3 * W25Q128FV_PAGE_SIZE_IN_BYTES + 7) % 4294967296 ≤
      W25Q128FV_FLASH_MEMORY_TOTAL_SIZE_IN_BYTES) ∧
    w25q128fv_write_flash_memory halAllOk 3 7 0 [9, 9] =
      (W25Q128FV_EC_OK, []) :=
  ⟨by decide, w25q128fv_write_zero_size_noop halAllOk 3 7 [9, 9]
    (by decide)⟩

/-- C10: whatever the transport outcomes and received bytes, the
caller-provided identifier location of `w25q128fv_read_id` is written
exactly on the `W25Q128FV_EC_OK` path (with the packed identifier) and left
untouched (`none` in the model) whenever the function returns anything
else, including the all-zero no-device sentinel. -/
theorem w25q128fv_read_id_id_location_frame :
    ∀ (t r : HAL_StatusTypeDef) (resp0 resp1 resp2 : Nat),
      ((w25q128fv_read_id t r resp0 resp1 resp2).1 = W25Q128FV_EC_OK ∧
        (w25q128fv_read_id t r resp0 resp1 resp2).2.1 =
          some (resp0 <<< 16 ||| resp1 <<< 8 ||| resp2)) ∨
      ((w25q128fv_read_id t r resp0 resp1 resp2).1 ≠ W25Q128FV_EC_OK ∧
        (w25q128fv_read_id t r resp0 resp1 resp2).2.1 = none) := by
  intro t r resp0 resp1 resp2
  by_cases hz : resp0 = 0 ∧ resp1 = 0 ∧ resp2 = 0 <;>
    cases t <;> cases r <;>
    simp [w25q128fv_read_id, HAL_ret_handler, hz]

/-- C8: on every execution path of every public operation — reset, read-id,
read, fast-read, sector-erase, chip-erase, write — under every transport
behaviour, the emitted chip-select events are well bracketed: each assert is
followed by a matching deassert before the operation returns (including
every early error return), so no path leaves the line asserted. -/
theorem w25q128fv_cs_released_on_every_path :
    ∀ (hal : Nat → HAL_StatusTypeDef) (t r h1 h2 h3 : HAL_StatusTypeDef)
      (start_page page_bytes_offset size sector_number : Nat)
      (src : List Nat) (resp0 resp1 resp2 : Nat),
      csOk false (w25q128fv_software_reset t).2 = true ∧
      csOk false (w25q128fv_read_id t r resp0 resp1 resp2).2.2 = true ∧
      csOk false (w25q128fv_read_flash_memory t r start_page
        page_bytes_offset size).2 = true ∧
      csOk false (w25q128fv_fast_read_flash_memory t r start_page
        page_bytes_offset size).2 = true ∧
      csOk false (w25q128fv_erase_sector h1 h2 h3 sector_number).2 = true ∧
      csOk false (w25q128fv_chip_erase h1 h2 h3).2 = true ∧
      csOk false (w25q128fv_write_flash_memory hal start_page
        page_bytes_offset size src).2 = true := by
  intro hal t r h1 h2 h3 start_page page_bytes_offset size sector_number
    src resp0 resp1 resp2
  refine ⟨?_, ?_, ?_, ?_, ?_, ?_, ?_⟩
  · cases t <;>
      simp [w25q128fv_software_reset, HAL_ret_handler, csOk,
        set_cs_pin_low, set_cs_pin_high]
  · by_cases hz : resp0 = 0 ∧ resp1 = 0 ∧ resp2 = 0 <;>
      cases t <;> cases r <;>
      simp [w25q128fv_read_id, HAL_ret_handler, csOk, set_cs_pin_low,
        set_cs_pin_high, hz]
  · cases t <;> cases r <;>
      · simp only [w25q128fv_read_flash_memory]
        split <;>
          simp [HAL_ret_handler, csOk, set_cs_pin_low, set_cs_pin_high]
  · cases t <;> cases r <;>
      · simp only [w25q128fv_fast_read_flash_memory]
        split <;>
          simp [HAL_ret_handler, csOk, set_cs_pin_low, set_cs_pin_high]
  · by_cases hsec : sector_number > W25Q128FV_TOTAL_SECTORS_MINUS_ONE
    · simp [w25q128fv_erase_sector, hsec, csOk]
    · cases h1 <;> cases h2 <;> cases h3 <;>
        simp [w25q128fv_erase_sector,
          send_w25q128fv_write_enable_instruction,
          send_w25q128fv_write_disable_instruction, HAL_ret_handler, csOk,
          set_cs_pin_low, set_cs_pin_high, hsec]
  · cases h1 <;> cases h2 <;> cases h3 <;>
      simp [w25q128fv_chip_erase, send_w25q128fv_write_enable_instruction,
        send_w25q128fv_write_disable_instruction, HAL_ret_handler, csOk,
        set_cs_pin_low, set_cs_pin_high]
  · simp only [w25q128fv_write_flash_memory]
    by_cases hv : ((start_page * W25Q128FV_PAGE_SIZE_IN_BYTES +
        page_bytes_offset) % 4294967296 + size) % 4294967296 >
        W25Q128FV_FLASH_MEMORY_TOTAL_SIZE_IN_BYTES
    · rw [if_pos hv]
      rfl
    · rw [if_neg hv]
      exact writeLoop_csOk hal src size _ size _ 0 _ 0
